import Mathlib

/-!
# Stream function `flow/app.go`: a shallow embedding

The Go program subscribes to a broker, and for each image payload it builds a
WasmEdge VM (`initVM`), calls the exported function "infer", logs a SHA-1
fingerprint of the payload together with a sequence number, and acknowledges
with the status byte 0x11.

Conventions of the embedding.

* A Go pointer is an `Option`: `none` is the nil pointer.
* A Go `error` is an `Option GoError`: `none` is the nil error.
* The third-party packages (wasmedge, yomo, os, log, fmt) are not part of the
  repository.  Each call into them is recorded as an event together with its
  receiver and arguments, and the values they hand back are taken from a record
  of outcomes (`Lib`, `Sfn`).  A library call returns to its caller, with one
  exception: the Release methods of WasmEdge-go read a field of their receiver,
  so a Release call on a nil receiver is a nil-pointer dereference and panics.
  The other panics that are modelled are the ones raised by statements of
  `app.go` itself (a field read through a nil `*VMContext`, a failed type
  assertion).
* `crypto/sha1` and the `%x` verb of `fmt` are modelled after FIPS 180-4 and
  the Go standard library.
* `uint64` and `uint32` values are natural numbers reduced modulo 2^64 and
  2^32 at every operation that can overflow.
-/

namespace Flow

/-! ## Bytes, SHA-1 and hexadecimal rendering -/

/-- One element of a Go byte slice. -/
abbrev Byte := Fin 256

/-- Addition of two uint32 values. -/
def add32 (a b : Nat) : Nat := (a + b) % 4294967296

/-- The function bits.RotateLeft32 for a rotation count between 1 and 31. -/
def rotl32 (x k : Nat) : Nat :=
  ((x <<< k) % 4294967296) ||| (x >>> (32 - k))

/-- Bitwise complement of a uint32 value. -/
def not32 (x : Nat) : Nat := x ^^^ 4294967295

/-- Big-endian assembly of four bytes into a uint32. -/
def be32 (b0 b1 b2 b3 : Nat) : Nat :=
  (b0 <<< 24) ||| (b1 <<< 16) ||| (b2 <<< 8) ||| b3

/-- The first `n` big-endian words of a block. -/
def blockWords : Nat → List Nat → List Nat
  | 0, _ => []
  | n + 1, p =>
    be32 (p.getD 0 0) (p.getD 1 0) (p.getD 2 0) (p.getD 3 0) :: blockWords n (p.drop 4)

/-- Round function of SHA-1 for round `i`. -/
def sha1F (i b c d : Nat) : Nat :=
  if i < 20 then (b &&& c) ||| (not32 b &&& d)
  else if i < 40 then b ^^^ c ^^^ d
  else if i < 60 then ((b ||| c) &&& d) ||| (b &&& c)
  else b ^^^ c ^^^ d

/-- Round constant of SHA-1 for round `i`. -/
def sha1K (i : Nat) : Nat :=
  if i < 20 then 0x5A827999
  else if i < 40 then 0x6ED9EBA1
  else if i < 60 then 0x8F1BBCDC
  else 0xCA62C1D6

/-- The five chaining words of SHA-1. -/
structure Regs where
  a : Nat
  b : Nat
  c : Nat
  d : Nat
  e : Nat
deriving DecidableEq, Repr

/-- Runs `n` rounds starting at round `i`, with the 16-word circular message
schedule `w` of the generic block function of crypto/sha1. -/
def sha1Rounds : Nat → Nat → List Nat → Regs → Regs
  | 0, _, _, r => r
  | n + 1, i, w, r =>
    let w := if i < 16 then w
      else w.set (i % 16)
        (rotl32 (w.getD ((i - 3) % 16) 0 ^^^ w.getD ((i - 8) % 16) 0
          ^^^ w.getD ((i - 14) % 16) 0 ^^^ w.getD (i % 16) 0) 1)
    let t := add32 (add32 (add32 (add32 (rotl32 r.a 5) (sha1F i r.b r.c r.d)) r.e)
      (w.getD (i % 16) 0)) (sha1K i)
    sha1Rounds n (i + 1) w ⟨t, r.a, rotl32 r.b 30, r.c, r.d⟩

/-- Compression of one 64-byte block. -/
def sha1Block (h : Regs) (p : List Nat) : Regs :=
  let r := sha1Rounds 80 0 (blockWords 16 p) h
  ⟨add32 h.a r.a, add32 h.b r.b, add32 h.c r.c, add32 h.d r.d, add32 h.e r.e⟩

/-- Compression of the first `n` 64-byte blocks of `p`. -/
def sha1Blocks : Nat → Regs → List Nat → Regs
  | 0, h, _ => h
  | n + 1, h, p => sha1Blocks n (sha1Block h (p.take 64)) (p.drop 64)

/-- Initial chaining value. -/
def sha1Init : Regs := ⟨0x67452301, 0xEFCDAB89, 0x98BADCFE, 0x10325476, 0xC3D2E1F0⟩

/-- Big-endian bytes of a uint64. -/
def putUint64 (v : Nat) : List Nat :=
  [(v >>> 56) % 256, (v >>> 48) % 256, (v >>> 40) % 256, (v >>> 32) % 256,
   (v >>> 24) % 256, (v >>> 16) % 256, (v >>> 8) % 256, v % 256]

/-- Big-endian bytes of a uint32. -/
def putUint32 (v : Nat) : List Nat :=
  [(v >>> 24) % 256, (v >>> 16) % 256, (v >>> 8) % 256, v % 256]

/-- Padding appended by checkSum for a message of `len` bytes: one byte 0x80,
zero bytes up to 56 modulo 64, then the length in bits as a uint64. -/
def sha1Padding (len : Nat) : List Nat :=
  let t := if len % 64 < 56 then 56 - len % 64 else 64 + 56 - len % 64
  (128 :: List.replicate (t - 1) 0) ++ putUint64 ((len * 8) % 18446744073709551616)

/-- The digest bytes: `h := sha1.New(); h.Write(buf); h.Sum(nil)`. -/
def sha1Sum (buf : List Byte) : List Nat :=
  let p := buf.map Fin.val ++ sha1Padding (buf.length % 18446744073709551616)
  let h := sha1Blocks (p.length / 64) sha1Init p
  putUint32 h.a ++ putUint32 h.b ++ putUint32 h.c ++ putUint32 h.d ++ putUint32 h.e

/-- The digit table of package fmt for the lowercase verb. -/
def ldigits : List Char :=
  ['0', '1', '2', '3', '4', '5', '6', '7', '8', '9', 'a', 'b', 'c', 'd', 'e', 'f']

/-- Two hexadecimal digits of one byte, high nibble first. -/
def hexByte (b : Nat) : List Char :=
  [ldigits.getD (b / 16) '0', ldigits.getD (b % 16) '0']

/-- The call `fmt.Sprintf("%x", bs)` on a byte slice. -/
def sprintfHex (bs : List Nat) : String := String.mk (bs.flatMap hexByte)

/-- The function genSha1 of app.go. -/
def genSha1 (buf : List Byte) : String := sprintfHex (sha1Sum buf)

/-- A character of the set 0-9a-f. -/
def isLowerHex (c : Char) : Prop :=
  ('0' ≤ c ∧ c ≤ '9') ∨ ('a' ≤ c ∧ c ≤ 'f')

instance (c : Char) : Decidable (isLowerHex c) := by
  unfold isLowerHex; infer_instance

/-! ## The execution context and the library outcomes -/

/-- A Go error value. -/
abbrev GoError := String

/-- The native objects one run of initVM creates, named after the expression
that creates them: NewConfigure, NewVMWithConfig, GetImportObject(WASI),
NewTensorflowImportObject, NewTensorflowLiteImportObject, NewImageImportObject. -/
inductive Obj
  | vmConf
  | vm
  | wasi
  | tfobj
  | tfliteobj
  | imgobj
deriving DecidableEq, Repr

/-- A pointer to a native object; `none` is nil. -/
abbrev Ptr := Option Obj

/-- The struct VMContext of app.go. -/
structure VMContext where
  vm : Ptr
  vmConf : Ptr
  tfImportObj : Ptr
  tfLiteImportObj : Ptr
  imgImportObj : Ptr
deriving DecidableEq, Repr

/-- The fields of VMContext. -/
inductive Field
  | vm
  | vmConf
  | tfImportObj
  | tfLiteImportObj
  | imgImportObj
deriving DecidableEq, Repr

/-- The calls of initVM that return an error, in program order. -/
inductive Step
  | setenvLog
  | setenvVlog
  | regTf
  | regTfLite
  | regImg
  | load
  | validate
  | instantiate
deriving DecidableEq, Repr

/-- The value of empty-interface type returned by ExecuteBindgen: nil, a byte
slice, or a value of another type. -/
inductive Dyn
  | nil
  | bytes (b : List Byte)
  | other
deriving DecidableEq, Repr

/-- Outcomes of the library calls of one Handler invocation: the error of each
fallible call of initVM, and the pair returned by ExecuteBindgen. -/
structure Lib where
  step : Step → Option GoError
  inferRes : Dyn
  inferErr : Option GoError

/-- Calls into the libraries, with receiver and arguments.  The process
arguments and environment handed to InitWasi are not recorded, only the
directory mapping. -/
inductive Event
  | setLogErrorLevel
  | setenv (key value : String)
  | newConfigure
  | newVMWithConfig (conf : Ptr)
  | getImportObject (vm : Ptr)
  | initWasi (wasi : Ptr) (dirs : List String)
  | newTensorflowImportObject
  | newTensorflowLiteImportObject
  | newImageImportObject
  | registerImport (vm : Ptr) (obj : Ptr)
  | loadWasmFile (vm : Ptr) (path : String)
  | validate (vm : Ptr)
  | instantiate (vm : Ptr)
  | executeBindgen (vm : Ptr) (name : String) (img : List Byte)
  | printInfer (res : List Byte)
  | printInferFailed
  | logReceived (n : Nat) (hash : String) (size : Nat)
  | release (f : Field) (recv : Ptr)
deriving DecidableEq, Repr

/-- What initVM returns, and the calls it made. -/
structure InitResult where
  ctx : Option VMContext
  err : Option GoError
  trace : List Event

/-- The function initVM of app.go. -/
def initVM (lib : Lib) : InitResult :=
  let t := [Event.setLogErrorLevel, Event.setenv "TF_CPP_MIN_LOG_LEVEL" "3"]
  match lib.step Step.setenvLog with
  | some e => ⟨none, some e, t⟩
  | none =>
  let t := t ++ [Event.setenv "TF_CPP_MIN_VLOG_LEVEL" "3"]
  match lib.step Step.setenvVlog with
  | some e => ⟨none, some e, t⟩
  | none =>
  let vmContext : VMContext := ⟨none, none, none, none, none⟩
  let vmContext : VMContext := { vmContext with vmConf := some Obj.vmConf }
  let t := t ++ [Event.newConfigure]
  let t := t ++ [Event.newVMWithConfig vmContext.vmConf]
  let vmContext : VMContext := { vmContext with vm := some Obj.vm }
  let wasi : Ptr := some Obj.wasi
  let t := t ++ [Event.getImportObject vmContext.vm, Event.initWasi wasi [".:."]]
  let tfobj : Ptr := some Obj.tfobj
  let tfliteobj : Ptr := some Obj.tfliteobj
  let t := t ++ [Event.newTensorflowImportObject, Event.newTensorflowLiteImportObject,
    Event.registerImport vmContext.vm tfobj]
  match lib.step Step.regTf with
  | some e => ⟨none, some e, t⟩
  | none =>
  let t := t ++ [Event.registerImport vmContext.vm tfliteobj]
  match lib.step Step.regTfLite with
  | some e => ⟨none, some e, t⟩
  | none =>
  let imgobj : Ptr := some Obj.imgobj
  let t := t ++ [Event.newImageImportObject, Event.registerImport vmContext.vm imgobj]
  match lib.step Step.regImg with
  | some e => ⟨none, some e, t⟩
  | none =>
  let t := t ++ [Event.loadWasmFile vmContext.vm "rust_mobilenet_food_lib_bg.so"]
  match lib.step Step.load with
  | some e => ⟨none, some e, t⟩
  | none =>
  let t := t ++ [Event.validate vmContext.vm]
  match lib.step Step.validate with
  | some e => ⟨none, some e, t⟩
  | none =>
  let t := t ++ [Event.instantiate vmContext.vm]
  match lib.step Step.instantiate with
  | some e => ⟨none, some e, t⟩
  | none => ⟨some vmContext, none, t⟩

/-! ## Handler -/

/-- The run-time panics raised by statements of Handler itself. -/
inductive Panic
  | nilContextInvoke
  | typeAssertion
  | nilContextRelease
  | nilReceiverRelease
deriving DecidableEq, Repr

/-- How a Handler invocation ends: with the returned pair (status, response),
or with the panics raised, oldest first. -/
inductive Outcome
  | returned (status : Nat) (resp : Option (List Byte))
  | panicked (ps : List Panic)
deriving DecidableEq, Repr

/-- End of an invocation, value of the global counter, calls made. -/
structure Run where
  outcome : Outcome
  counter : Nat
  trace : List Event

/-- Lines 66 to 77 of Handler: the statements after the defer statement.
Reading `vmContext.vm` through a nil context panics (nilContextInvoke); the
assertion `res.([]byte)` panics on a value that is not a byte slice. -/
def handlerBody (lib : Lib) (counter : Nat) (img : List Byte)
    (vmContext : Option VMContext) : Run :=
  match vmContext with
  | none => ⟨Outcome.panicked [Panic.nilContextInvoke], counter, []⟩
  | some c =>
    let t := [Event.executeBindgen c.vm "infer" img]
    let printed : Option (List Event) :=
      match lib.inferErr with
      | none =>
        match lib.inferRes with
        | Dyn.bytes res => some [Event.printInfer res]
        | _ => none
      | some _ => some [Event.printInferFailed]
    match printed with
    | none => ⟨Outcome.panicked [Panic.typeAssertion], counter, t⟩
    | some p =>
      let hash := genSha1 img
      let n := (counter + 1) % 18446744073709551616
      ⟨Outcome.returned 0x11 none, n, t ++ p ++ [Event.logReceived n hash img.length]⟩

/-- Release calls made one after the other on the given receivers.  A call on
a nil receiver is made and panics inside the library, and the calls after it
are not made.  The result is the calls made and whether the last one
panicked. -/
def releaseEach : List (Field × Ptr) → List Event × Bool
  | [] => ([], false)
  | (f, none) :: _ => ([Event.release f none], true)
  | (f, some o) :: rest =>
    (Event.release f (some o) :: (releaseEach rest).1, (releaseEach rest).2)

/-- The deferred closure of Handler, lines 57 to 63: the calls it makes and the
panic that ends it, if any.  Reading a field through a nil context panics
before any call is made (nilContextRelease); otherwise Release is called on
the values of the fields imgImportObj, tfImportObj, tfLiteImportObj, vm and
vmConf in this order, up to the first nil receiver (nilReceiverRelease). -/
def deferredRelease (vmContext : Option VMContext) : List Event × Option Panic :=
  match vmContext with
  | none => ([], some Panic.nilContextRelease)
  | some c =>
    let r := releaseEach [(Field.imgImportObj, c.imgImportObj),
      (Field.tfImportObj, c.tfImportObj),
      (Field.tfLiteImportObj, c.tfLiteImportObj),
      (Field.vm, c.vm),
      (Field.vmConf, c.vmConf)]
    (r.1, if r.2 then some Panic.nilReceiverRelease else none)

/-- The function Handler of app.go, started with the global counter at
`counter`.  The error of initVM is discarded; the deferred closure runs when
the body returns and when it panics, and a panic of the closure replaces the
return of the body. -/
def Handler (lib : Lib) (counter : Nat) (img : List Byte) : Run :=
  let init := initVM lib
  let vmContext := init.ctx
  let body := handlerBody lib counter img vmContext
  let rel := deferredRelease vmContext
  let outcome :=
    match rel.2 with
    | none => body.outcome
    | some p =>
      match body.outcome with
      | Outcome.panicked ps => Outcome.panicked (ps ++ [p])
      | Outcome.returned _ _ => Outcome.panicked [p]
  ⟨outcome, body.counter, init.trace ++ body.trace ++ rel.1⟩

/-! ## main -/

/-- The constant ImageDataKey. -/
def ImageDataKey : Nat := 0x10

/-- Outcomes of the two fallible calls on the stream function. -/
structure Sfn where
  setHandler : Option GoError
  connect : Option GoError

/-- Calls made by main. -/
inductive MainEvent
  | newStreamFunction (name addr : String)
  | setObserveDataID (id : Nat)
  | setHandler
  | connect
  | logPrint (msg : String) (err : GoError)
  | exit (code : Nat)
deriving DecidableEq, Repr

/-- How main ends: the process exits with a status, or main blocks in the
empty select statement for the life of the process. -/
inductive MainOutcome
  | exited (code : Nat)
  | blocked
deriving DecidableEq, Repr

/-- The function main of app.go.  The deferred call of Close never runs:
os.Exit ends the process without running deferred calls and the empty select
statement does not return. -/
def main (sdk : Sfn) : MainOutcome × List MainEvent :=
  let t := [MainEvent.newStreamFunction "image-recognition" "localhost:9900",
    MainEvent.setObserveDataID ImageDataKey, MainEvent.setHandler]
  match sdk.setHandler with
  | some err =>
    (MainOutcome.exited 1,
      t ++ [MainEvent.logPrint "❌ Failed to set the handler: " err, MainEvent.exit 1])
  | none =>
  let t := t ++ [MainEvent.connect]
  match sdk.connect with
  | some err =>
    (MainOutcome.exited 1,
      t ++ [MainEvent.logPrint "❌ Connect to zipper failure: " err, MainEvent.exit 1])
  | none => (MainOutcome.blocked, t)

/-! ## Reading traces -/

/-- The fallible initialisation call an event stands for, if any. -/
def stepOf : Event → Option Step
  | Event.setenv key _ =>
    if key = "TF_CPP_MIN_LOG_LEVEL" then some Step.setenvLog
    else if key = "TF_CPP_MIN_VLOG_LEVEL" then some Step.setenvVlog
    else none
  | Event.registerImport _ (some Obj.tfobj) => some Step.regTf
  | Event.registerImport _ (some Obj.tfliteobj) => some Step.regTfLite
  | Event.registerImport _ (some Obj.imgobj) => some Step.regImg
  | Event.loadWasmFile _ _ => some Step.load
  | Event.validate _ => some Step.validate
  | Event.instantiate _ => some Step.instantiate
  | _ => none

/-- The eight fallible steps in the order initVM runs them. -/
def stepOrder : List Step :=
  [Step.setenvLog, Step.setenvVlog, Step.regTf, Step.regTfLite, Step.regImg,
   Step.load, Step.validate, Step.instantiate]

/-- The first step that fails, with its error, searching `steps` in order. -/
def firstFailure (lib : Lib) : List Step → Option (Step × GoError)
  | [] => none
  | s :: rest =>
    match lib.step s with
    | some e => some (s, e)
    | none => firstFailure lib rest

/-- The steps of `steps` up to and including `s`. -/
def upTo (s : Step) : List Step → List Step
  | [] => []
  | x :: rest => if x = s then [x] else x :: upTo s rest

/-- The Release calls of a trace: field and receiver. -/
def releasesOf (t : List Event) : List (Field × Ptr) :=
  t.filterMap fun e =>
    match e with
    | Event.release f recv => some (f, recv)
    | _ => none

/-- The objects a trace creates. -/
def createdBy (t : List Event) : List Obj :=
  t.filterMap fun e =>
    match e with
    | Event.newConfigure => some Obj.vmConf
    | Event.newVMWithConfig _ => some Obj.vm
    | Event.newTensorflowImportObject => some Obj.tfobj
    | Event.newTensorflowLiteImportObject => some Obj.tfliteobj
    | Event.newImageImportObject => some Obj.imgobj
    | _ => none

/-- The objects a trace passes to Release. -/
def releasedBy (t : List Event) : List Obj :=
  (releasesOf t).filterMap Prod.snd

/-- The calls of "infer" in a trace. -/
def inferCalls (t : List Event) : Nat :=
  t.countP fun e =>
    match e with
    | Event.executeBindgen _ _ _ => true
    | _ => false

/-- The part of a list after the first occurrence of `x`. -/
def afterFirst {α : Type} [DecidableEq α] (x : α) (l : List α) : List α :=
  (l.dropWhile fun y => decide (y ≠ x)).drop 1

/-- The part of a list before the first occurrence of `x`. -/
def beforeFirst {α : Type} [DecidableEq α] (x : α) (l : List α) : List α :=
  l.takeWhile fun y => decide (y ≠ x)

/-- A library in which every initialisation step succeeds and "infer" ends as
given. -/
def libOk (res : Dyn) (err : Option GoError) : Lib := ⟨fun _ => none, res, err⟩

/-- A library in which the module file cannot be loaded. -/
def libNoModule : Lib :=
  ⟨fun s => if s = Step.load then some "load failed" else none, Dyn.nil, none⟩

/-- The context initVM returns when every step succeeds: only the fields vm and
vmConf are assigned (lines 102 and 105); the three import objects stay in the
local variables tfobj, tfliteobj and imgobj. -/
def readyContext : VMContext := ⟨some Obj.vm, some Obj.vmConf, none, none, none⟩

/-- The calls of a run of initVM in which every step succeeds. -/
def readyTrace : List Event :=
  [Event.setLogErrorLevel, Event.setenv "TF_CPP_MIN_LOG_LEVEL" "3",
   Event.setenv "TF_CPP_MIN_VLOG_LEVEL" "3", Event.newConfigure,
   Event.newVMWithConfig (some Obj.vmConf), Event.getImportObject (some Obj.vm),
   Event.initWasi (some Obj.wasi) [".:."], Event.newTensorflowImportObject,
   Event.newTensorflowLiteImportObject,
   Event.registerImport (some Obj.vm) (some Obj.tfobj),
   Event.registerImport (some Obj.vm) (some Obj.tfliteobj),
   Event.newImageImportObject,
   Event.registerImport (some Obj.vm) (some Obj.imgobj),
   Event.loadWasmFile (some Obj.vm) "rust_mobilenet_food_lib_bg.so",
   Event.validate (some Obj.vm), Event.instantiate (some Obj.vm)]

/-- The fallible steps a trace attempts, in order. -/
def stepsOf (t : List Event) : List Step := t.filterMap stepOf

/-- The order of the fields on which a trace calls Release. -/
def releaseOrder (t : List Event) : List Field := (releasesOf t).map Prod.fst

/-- The context with every field assigned to the object initVM creates for it. -/
def fullContext : VMContext :=
  ⟨some Obj.vm, some Obj.vmConf, some Obj.tfobj, some Obj.tfliteobj, some Obj.imgobj⟩

/-- The three import-table objects. -/
def importObjs : List Obj := [Obj.imgobj, Obj.tfobj, Obj.tfliteobj]

/-- The fields in the order in which the deferred closure names them. -/
def fieldOrder : List Field :=
  [Field.imgImportObj, Field.tfImportObj, Field.tfLiteImportObj, Field.vm, Field.vmConf]

/-! ## Lemmas on initVM -/

/-- Result of initVM as a function of the first failing step. -/
theorem initVM_cases (lib : Lib) :
    match firstFailure lib stepOrder with
    | some (s, e) =>
      (initVM lib).ctx = none ∧ (initVM lib).err = some e ∧
        stepsOf (initVM lib).trace = upTo s stepOrder
    | none =>
      (initVM lib).ctx = some readyContext ∧ (initVM lib).err = none ∧
        stepsOf (initVM lib).trace = stepOrder := by
  cases h1 : lib.step Step.setenvLog
  case some e => simp [initVM, firstFailure, stepOrder, upTo, stepsOf, stepOf, h1]
  cases h2 : lib.step Step.setenvVlog
  case some e => simp [initVM, firstFailure, stepOrder, upTo, stepsOf, stepOf, h1, h2]
  cases h3 : lib.step Step.regTf
  case some e => simp [initVM, firstFailure, stepOrder, upTo, stepsOf, stepOf, h1, h2, h3]
  cases h4 : lib.step Step.regTfLite
  case some e => simp [initVM, firstFailure, stepOrder, upTo, stepsOf, stepOf, h1, h2, h3, h4]
  cases h5 : lib.step Step.regImg
  case some e =>
    simp [initVM, firstFailure, stepOrder, upTo, stepsOf, stepOf, h1, h2, h3, h4, h5]
  cases h6 : lib.step Step.load
  case some e =>
    simp [initVM, firstFailure, stepOrder, upTo, stepsOf, stepOf, h1, h2, h3, h4, h5, h6]
  cases h7 : lib.step Step.validate
  case some e =>
    simp [initVM, firstFailure, stepOrder, upTo, stepsOf, stepOf, h1, h2, h3, h4, h5, h6, h7]
  cases h8 : lib.step Step.instantiate
  case some e =>
    simp [initVM, firstFailure, stepOrder, upTo, stepsOf, stepOf, h1, h2, h3, h4, h5, h6, h7, h8]
  simp [initVM, firstFailure, stepOrder, stepsOf, stepOf, h1, h2, h3, h4, h5, h6, h7, h8,
    readyContext]

/-- No step fails exactly when the search for a first failure finds none. -/
theorem firstFailure_none (lib : Lib) :
    firstFailure lib stepOrder = none ↔ ∀ s, lib.step s = none := by
  constructor
  · intro h s
    cases h1 : lib.step Step.setenvLog
    case some e => simp [firstFailure, stepOrder, h1] at h
    cases h2 : lib.step Step.setenvVlog
    case some e => simp [firstFailure, stepOrder, h1, h2] at h
    cases h3 : lib.step Step.regTf
    case some e => simp [firstFailure, stepOrder, h1, h2, h3] at h
    cases h4 : lib.step Step.regTfLite
    case some e => simp [firstFailure, stepOrder, h1, h2, h3, h4] at h
    cases h5 : lib.step Step.regImg
    case some e => simp [firstFailure, stepOrder, h1, h2, h3, h4, h5] at h
    cases h6 : lib.step Step.load
    case some e => simp [firstFailure, stepOrder, h1, h2, h3, h4, h5, h6] at h
    cases h7 : lib.step Step.validate
    case some e => simp [firstFailure, stepOrder, h1, h2, h3, h4, h5, h6, h7] at h
    cases h8 : lib.step Step.instantiate
    case some e => simp [firstFailure, stepOrder, h1, h2, h3, h4, h5, h6, h7, h8] at h
    cases s <;> assumption
  · intro h
    simp [firstFailure, stepOrder, h]

/-- A failing step all of whose predecessors succeed is the first failure. -/
theorem firstFailure_of_first (lib : Lib) (s : Step) (e : GoError)
    (hs : lib.step s = some e)
    (hb : ∀ x ∈ beforeFirst s stepOrder, lib.step x = none) :
    firstFailure lib stepOrder = some (s, e) := by
  cases s <;> simp [beforeFirst, stepOrder] at hb <;> simp [firstFailure, stepOrder, hs, hb]

/-- The steps up to and including `s` are the steps before `s` followed by `s`. -/
theorem upTo_eq (s : Step) : upTo s stepOrder = beforeFirst s stepOrder ++ [s] := by
  cases s <;> decide

/-- The error of initVM is nil exactly when no step fails. -/
theorem initVM_err_none_iff (lib : Lib) :
    (initVM lib).err = none ↔ ∀ s, lib.step s = none := by
  have hc := initVM_cases lib
  rw [← firstFailure_none]
  cases hf : firstFailure lib stepOrder with
  | none => rw [hf] at hc; simp [hc.2.1]
  | some p => obtain ⟨s, e⟩ := p; rw [hf] at hc; simp [hc.2.1]

/-- The whole result of a run of initVM that returns a nil error. -/
theorem initVM_of_ok (lib : Lib) (h : (initVM lib).err = none) :
    initVM lib = ⟨some readyContext, none, readyTrace⟩ := by
  have hs := (initVM_err_none_iff lib).1 h
  simp [initVM, hs, readyContext, readyTrace]

/-! ## Lemmas on Handler traces -/

theorem releasesOf_append (t u : List Event) :
    releasesOf (t ++ u) = releasesOf t ++ releasesOf u := by
  simp [releasesOf]

theorem createdBy_append (t u : List Event) :
    createdBy (t ++ u) = createdBy t ++ createdBy u := by
  simp [createdBy]

/-- The statements after the defer statement make no Release call. -/
theorem releasesOf_body (lib : Lib) (c : Nat) (img : List Byte) (v : Option VMContext) :
    releasesOf (handlerBody lib c img v).trace = [] := by
  cases v with
  | none => simp [handlerBody, releasesOf]
  | some x =>
    cases he : lib.inferErr with
    | some e => simp [handlerBody, releasesOf, he]
    | none => cases hr : lib.inferRes <;> simp [handlerBody, releasesOf, he, hr]

/-- The statements after the defer statement create no native object. -/
theorem createdBy_body (lib : Lib) (c : Nat) (img : List Byte) (v : Option VMContext) :
    createdBy (handlerBody lib c img v).trace = [] := by
  cases v with
  | none => simp [handlerBody, createdBy]
  | some x =>
    cases he : lib.inferErr with
    | some e => simp [handlerBody, createdBy, he]
    | none => cases hr : lib.inferRes <;> simp [handlerBody, createdBy, he, hr]

/-- The function initVM makes no Release call. -/
theorem releasesOf_initVM (lib : Lib) : releasesOf (initVM lib).trace = [] := by
  cases h1 : lib.step Step.setenvLog
  case some e => simp [initVM, releasesOf, h1]
  cases h2 : lib.step Step.setenvVlog
  case some e => simp [initVM, releasesOf, h1, h2]
  cases h3 : lib.step Step.regTf
  case some e => simp [initVM, releasesOf, h1, h2, h3]
  cases h4 : lib.step Step.regTfLite
  case some e => simp [initVM, releasesOf, h1, h2, h3, h4]
  cases h5 : lib.step Step.regImg
  case some e => simp [initVM, releasesOf, h1, h2, h3, h4, h5]
  cases h6 : lib.step Step.load
  case some e => simp [initVM, releasesOf, h1, h2, h3, h4, h5, h6]
  cases h7 : lib.step Step.validate
  case some e => simp [initVM, releasesOf, h1, h2, h3, h4, h5, h6, h7]
  cases h8 : lib.step Step.instantiate
  case some e => simp [initVM, releasesOf, h1, h2, h3, h4, h5, h6, h7, h8]
  simp [initVM, releasesOf, h1, h2, h3, h4, h5, h6, h7, h8]

/-- The deferred closure on the context of a successful initVM: one Release
call, on the nil field imgImportObj, which panics. -/
theorem deferredRelease_ready :
    deferredRelease (some readyContext) =
      ([Event.release Field.imgImportObj none], some Panic.nilReceiverRelease) := by
  decide

/-- Trace of a Handler invocation whose initialisation succeeded. -/
theorem Handler_trace_of_ok (lib : Lib) (c : Nat) (img : List Byte)
    (hinit : (initVM lib).err = none) :
    (Handler lib c img).trace =
      readyTrace ++ (handlerBody lib c img (some readyContext)).trace ++
        [Event.release Field.imgImportObj none] := by
  have hi := initVM_of_ok lib hinit
  simp [Handler, hi, deferredRelease_ready]

/-- The Release calls of an invocation whose initialisation succeeded. -/
theorem releasesOf_of_ok (lib : Lib) (c : Nat) (img : List Byte)
    (hinit : (initVM lib).err = none) :
    releasesOf (Handler lib c img).trace = [(Field.imgImportObj, none)] := by
  rw [Handler_trace_of_ok lib c img hinit, releasesOf_append, releasesOf_append,
    releasesOf_body]
  decide

/-- The Release calls of an invocation whose initialisation failed: none. -/
theorem releasesOf_of_err (lib : Lib) (c : Nat) (img : List Byte)
    (hinit : (initVM lib).err ≠ none) :
    releasesOf (Handler lib c img).trace = [] := by
  have hctx : (initVM lib).ctx = none := by
    have hc := initVM_cases lib
    cases hf : firstFailure lib stepOrder with
    | none => rw [hf] at hc; exact absurd hc.2.1 hinit
    | some p => obtain ⟨s, e⟩ := p; rw [hf] at hc; exact hc.1
  simp [Handler, hctx, deferredRelease, handlerBody, releasesOf_append, releasesOf_initVM]

/-- Outcome of an invocation whose initialisation succeeded: the panic of the
deferred closure, after the panic of the body if it raised one. -/
theorem Handler_outcome_of_ok (lib : Lib) (c : Nat) (img : List Byte)
    (hinit : (initVM lib).err = none) :
    (Handler lib c img).outcome =
      match (handlerBody lib c img (some readyContext)).outcome with
      | Outcome.panicked ps => Outcome.panicked (ps ++ [Panic.nilReceiverRelease])
      | Outcome.returned _ _ => Outcome.panicked [Panic.nilReceiverRelease] := by
  have hi := initVM_of_ok lib hinit
  simp [Handler, hi, deferredRelease_ready]

/-- Counter of an invocation whose initialisation succeeded and whose inference
call failed or produced a byte slice. -/
theorem Handler_counter_of_ok (lib : Lib) (c : Nat) (img : List Byte)
    (hinit : (initVM lib).err = none)
    (hres : lib.inferErr = none → ∃ res, lib.inferRes = Dyn.bytes res) :
    (Handler lib c img).counter = (c + 1) % 18446744073709551616 := by
  have hi := initVM_of_ok lib hinit
  cases he : lib.inferErr with
  | some e => simp [Handler, hi, handlerBody, he]
  | none =>
    obtain ⟨res, hr⟩ := hres he
    simp [Handler, hi, handlerBody, he, hr]

/-- The run of Handler when the module file cannot be loaded. -/
theorem Handler_libNoModule (c : Nat) (img : List Byte) :
    Handler libNoModule c img =
      ⟨Outcome.panicked [Panic.nilContextInvoke, Panic.nilContextRelease], c,
        (initVM libNoModule).trace⟩ := by
  simp [Handler, handlerBody, deferredRelease, initVM, libNoModule]

/-- Every step of the library `libOk` succeeds. -/
theorem initVM_libOk (res : Dyn) (err : Option GoError) :
    (initVM (libOk res err)).err = none :=
  (initVM_err_none_iff _).2 (fun _ => rfl)

/-! ## Lemmas on the hexadecimal rendering -/

/-- Every entry the digit table can yield is a lowercase hexadecimal digit. -/
theorem ldigits_getD_isLowerHex (n : Nat) : isLowerHex (ldigits.getD n '0') := by
  rcases Nat.lt_or_ge n 16 with h | h
  · interval_cases n <;> decide
  · rw [List.getD_eq_default _ _ (by simpa [ldigits] using h)]
    decide

/-- Each byte is rendered as two characters. -/
theorem flatMap_hexByte_length (bs : List Nat) :
    (bs.flatMap hexByte).length = 2 * bs.length := by
  induction bs with
  | nil => rfl
  | cons b bs ih => simp [List.flatMap_cons, hexByte, ih]; omega

/-- The digest has twenty bytes. -/
theorem sha1Sum_length (buf : List Byte) : (sha1Sum buf).length = 20 := by
  simp [sha1Sum, putUint32]

/-- Every element of the digest is a byte. -/
theorem sha1Sum_lt (buf : List Byte) : ∀ b ∈ sha1Sum buf, b < 256 := by
  intro b hb
  simp only [sha1Sum, putUint32, List.mem_append, List.mem_cons, List.mem_singleton,
    List.not_mem_nil, or_false] at hb
  rcases hb with (((h | h) | h) | h) | h <;> rcases h with h | h | h | h <;>
    (rw [h]; exact Nat.mod_lt _ (by decide))

/-! ## The claims -/

/-- C1, on the code. When every step of initVM succeeds, the statements of
Handler reach `return 0x11, nil`, for a successful inference call with a
byte-slice result as for a failed one, but Handler does not return that pair:
the deferred closure calls Release on the field imgImportObj, which initVM
never assigns, and the call panics on the nil receiver. -/
theorem Handler_panics_in_teardown (b : List Byte) (e : GoError) (c : Nat)
    (img : List Byte) :
    (handlerBody (libOk (Dyn.bytes b) none) c img
        (initVM (libOk (Dyn.bytes b) none)).ctx).outcome = Outcome.returned 0x11 none ∧
      (Handler (libOk (Dyn.bytes b) none) c img).outcome =
        Outcome.panicked [Panic.nilReceiverRelease] ∧
      (handlerBody (libOk Dyn.nil (some e)) c img
        (initVM (libOk Dyn.nil (some e))).ctx).outcome = Outcome.returned 0x11 none ∧
      (Handler (libOk Dyn.nil (some e)) c img).outcome =
        Outcome.panicked [Panic.nilReceiverRelease] := by
  have h1 := initVM_of_ok _ (initVM_libOk (Dyn.bytes b) none)
  have h2 := initVM_of_ok _ (initVM_libOk Dyn.nil (some e))
  refine ⟨?_, ?_, ?_, ?_⟩
  · rw [h1]; simp [handlerBody, libOk]
  · rw [Handler_outcome_of_ok _ _ _ (initVM_libOk _ _)]; simp [handlerBody, libOk]
  · rw [h2]; simp [handlerBody, libOk]
  · rw [Handler_outcome_of_ok _ _ _ (initVM_libOk _ _)]; simp [handlerBody, libOk]

/-- C2, as stated, fails at the largest uint64: started with the counter at
2^64 - 1, a Handler invocation whose initialisation and inference call succeed
leaves the counter at 0, which is neither greater than 2^64 - 1 nor equal to
2^64. -/
theorem Handler_counter_wraps :
    (Handler (libOk (Dyn.bytes []) none) 18446744073709551615 []).counter = 0 ∧
      ¬ (18446744073709551615 <
            (Handler (libOk (Dyn.bytes []) none) 18446744073709551615 []).counter ∧
          (Handler (libOk (Dyn.bytes []) none) 18446744073709551615 []).counter =
            18446744073709551615 + 1) := by
  decide

/-- C2, amended. When initVM returned a nil error and the inference call failed
or produced a byte slice, a Handler invocation started with the counter at c
leaves the counter at (c + 1) mod 2^64: that is c + 1, strictly greater than c,
when c is below 2^64 - 1, and 0 when c is 2^64 - 1. -/
theorem Handler_counter_step (lib : Lib) (c : Nat) (img : List Byte)
    (hinit : (initVM lib).err = none)
    (hres : lib.inferErr = none → ∃ res, lib.inferRes = Dyn.bytes res) :
    (Handler lib c img).counter = (c + 1) % 18446744073709551616 ∧
      (c < 18446744073709551615 →
        (Handler lib c img).counter = c + 1 ∧ c < (Handler lib c img).counter) ∧
      (c = 18446744073709551615 → (Handler lib c img).counter = 0) := by
  have hcnt := Handler_counter_of_ok lib c img hinit hres
  refine ⟨hcnt, ?_, ?_⟩
  · intro h
    rw [hcnt, Nat.mod_eq_of_lt (by omega)]
    omega
  · intro h
    rw [hcnt, h]

/-- Instance of the amended C2 with a successful inference call. -/
theorem Handler_counter_step_witness :
    (initVM (libOk (Dyn.bytes [104, 105]) none)).err = none ∧
      (Handler (libOk (Dyn.bytes [104, 105]) none) 41 [9]).counter = 42 :=
  have h := Handler_counter_step (libOk (Dyn.bytes [104, 105]) none) 41 [9] (by decide)
    (fun _ => ⟨[104, 105], rfl⟩)
  ⟨by decide, (h.2.1 (by decide)).1⟩

/-- C3, on the code. When the module file cannot be loaded, initVM returns a
nil context and an error, and Handler still runs its deferred release on the
nil context: the invocation ends with the nil-dereference panic of line 66
followed by the nil-dereference panic of the deferred closure (line 58).  The
deferred release is not gated on the error of initVM. -/
theorem Handler_teardown_on_nil (c : Nat) (img : List Byte) :
    (initVM libNoModule).ctx = none ∧ (initVM libNoModule).err = some "load failed" ∧
      deferredRelease (initVM libNoModule).ctx = ([], some Panic.nilContextRelease) ∧
      (Handler libNoModule c img).outcome =
        Outcome.panicked [Panic.nilContextInvoke, Panic.nilContextRelease] := by
  refine ⟨by decide, by decide, by decide, ?_⟩
  rw [Handler_libNoModule]

/-- C4, on the code. When the module file cannot be loaded, Handler does not
return for any payload: it panics on the read of the field vm through the nil
context, before "infer" is called and before any Release call, and the counter
is left unchanged. -/
theorem Handler_panics_on_init_failure (c : Nat) (img : List Byte) :
    (∀ status resp, (Handler libNoModule c img).outcome ≠ Outcome.returned status resp) ∧
      (∃ ps, (Handler libNoModule c img).outcome = Outcome.panicked ps ∧
        Panic.nilContextInvoke ∈ ps) ∧
      inferCalls (Handler libNoModule c img).trace = 0 ∧
      releasesOf (Handler libNoModule c img).trace = [] ∧
      (Handler libNoModule c img).counter = c := by
  rw [Handler_libNoModule]
  refine ⟨by simp, ⟨_, rfl, by simp⟩, ?_, ?_, rfl⟩
  · show inferCalls (initVM libNoModule).trace = 0
    decide
  · show releasesOf (initVM libNoModule).trace = []
    decide

/-- C5. initVM fails fast. If step s fails with error e and every step before
s in program order succeeds, initVM returns the nil context and e, and the
fallible steps it attempted are exactly the steps before s followed by s. No
step is attempted twice. initVM returns a non-nil context with a nil error if
and only if all eight steps succeed, and the context is nil exactly when the
error is not. -/
theorem initVM_fails_fast (lib : Lib) :
    (∀ s e, lib.step s = some e →
        (∀ x ∈ beforeFirst s stepOrder, lib.step x = none) →
        (initVM lib).ctx = none ∧ (initVM lib).err = some e ∧
          stepsOf (initVM lib).trace = beforeFirst s stepOrder ++ [s]) ∧
      (stepsOf (initVM lib).trace).Nodup ∧
      (((initVM lib).ctx ≠ none ∧ (initVM lib).err = none) ↔ ∀ s, lib.step s = none) ∧
      ((initVM lib).ctx = none ↔ (initVM lib).err ≠ none) := by
  have hc := initVM_cases lib
  refine ⟨?_, ?_, ?_, ?_⟩
  · intro s e hs hb
    rw [firstFailure_of_first lib s e hs hb] at hc
    simpa [upTo_eq] using hc
  · cases hf : firstFailure lib stepOrder with
    | none =>
      rw [hf] at hc
      rw [hc.2.2]; decide
    | some p =>
      obtain ⟨s, e⟩ := p
      rw [hf] at hc
      rw [hc.2.2]
      cases s <;> decide
  · rw [← firstFailure_none]
    cases hf : firstFailure lib stepOrder with
    | none => rw [hf] at hc; simp [hc.1, hc.2.1]
    | some p => obtain ⟨s, e⟩ := p; rw [hf] at hc; simp [hc.1]
  · cases hf : firstFailure lib stepOrder with
    | none => rw [hf] at hc; simp [hc.1, hc.2.1]
    | some p => obtain ⟨s, e⟩ := p; rw [hf] at hc; simp [hc.1, hc.2.1]

/-- Instance of C5: the module file cannot be loaded. -/
theorem initVM_fails_fast_witness :
    (initVM libNoModule).ctx = none ∧ (initVM libNoModule).err = some "load failed" ∧
      stepsOf (initVM libNoModule).trace =
        [Step.setenvLog, Step.setenvVlog, Step.regTf, Step.regTfLite, Step.regImg,
         Step.load] :=
  (initVM_fails_fast libNoModule).1 Step.load "load failed" (by decide) (by decide)

/-- C6, on the code. In every invocation in which every step of initVM
succeeds, for every result of the inference call, the teardown makes a single
Release call, on the field imgImportObj, which holds nil because initVM keeps
the import objects it creates in local variables; the call panics. The
invocation creates five objects and releases none of them, and Handler does not
return. -/
theorem Handler_import_tables_not_released (res : Dyn) (err : Option GoError) (c : Nat)
    (img : List Byte) :
    releasesOf (Handler (libOk res err) c img).trace = [(Field.imgImportObj, none)] ∧
      createdBy (Handler (libOk res err) c img).trace =
        [Obj.vmConf, Obj.vm, Obj.tfobj, Obj.tfliteobj, Obj.imgobj] ∧
      releasedBy (Handler (libOk res err) c img).trace = [] ∧
      (∃ ps, (Handler (libOk res err) c img).outcome =
        Outcome.panicked (ps ++ [Panic.nilReceiverRelease])) := by
  have hinit := initVM_libOk res err
  have hr := releasesOf_of_ok (libOk res err) c img hinit
  refine ⟨hr, ?_, ?_, ?_⟩
  · rw [Handler_trace_of_ok _ c img hinit, createdBy_append, createdBy_append,
      createdBy_body]
    decide
  · rw [releasedBy, hr]
    decide
  · rw [Handler_outcome_of_ok _ _ _ hinit]
    cases err with
    | some e => exact ⟨[], by simp [handlerBody, libOk]⟩
    | none =>
      cases res with
      | bytes b => exact ⟨[], by simp [handlerBody, libOk]⟩
      | nil => exact ⟨[Panic.typeAssertion], by simp [handlerBody, libOk]⟩
      | other => exact ⟨[Panic.typeAssertion], by simp [handlerBody, libOk]⟩

/-- C7, as stated, fails. In the teardown of a successfully initialised
invocation the configuration object is not released after the VM (neither is
passed to Release), so the conjunction of "no import table is released before
the VM" and "the configuration object is released after the VM" is false; and
on the context with every field assigned the closure releases the import
tables before the VM. -/
theorem Handler_conf_not_released_after_vm :
    ¬ ((∀ o ∈ importObjs,
          o ∉ beforeFirst Obj.vm
            (releasedBy (Handler (libOk (Dyn.bytes []) none) 0 []).trace)) ∧
        Obj.vmConf ∈ afterFirst Obj.vm
          (releasedBy (Handler (libOk (Dyn.bytes []) none) 0 []).trace)) ∧
      ¬ (∀ o ∈ importObjs,
          o ∉ beforeFirst Obj.vm (releasedBy (deferredRelease (some fullContext)).1)) := by
  rw [releasedBy, releasesOf_of_ok _ _ _ (by decide)]
  decide

/-- C7, amended. The deferred closure calls Release on the fields in the fixed
order imgImportObj, tfImportObj, tfLiteImportObj, vm, vmConf: the Release calls
of every Handler invocation are an initial segment of that sequence, and on a
context whose five fields are assigned the closure makes all five calls and
does not panic, so that the three import tables are released before the VM and
the configuration object after it. -/
theorem deferredRelease_order (lib : Lib) (c : Nat) (img : List Byte)
    (v cf tf tfl im : Obj) :
    (∃ rest, releaseOrder (Handler lib c img).trace ++ rest = fieldOrder) ∧
      deferredRelease (some ⟨some v, some cf, some tf, some tfl, some im⟩) =
        ([Event.release Field.imgImportObj (some im),
          Event.release Field.tfImportObj (some tf),
          Event.release Field.tfLiteImportObj (some tfl),
          Event.release Field.vm (some v),
          Event.release Field.vmConf (some cf)], none) ∧
      releasedBy (deferredRelease (some ⟨some v, some cf, some tf, some tfl, some im⟩)).1 =
        [im, tf, tfl, v, cf] ∧
      (∀ o ∈ importObjs,
        o ∈ beforeFirst Obj.vm (releasedBy (deferredRelease (some fullContext)).1)) ∧
      afterFirst Obj.vm (releasedBy (deferredRelease (some fullContext)).1) =
        [Obj.vmConf] := by
  refine ⟨?_, by simp [deferredRelease, releaseEach],
    by simp [deferredRelease, releaseEach, releasedBy, releasesOf], by decide, by decide⟩
  cases hinit : (initVM lib).err with
  | none =>
    rw [releaseOrder, releasesOf_of_ok lib c img hinit]
    exact ⟨[Field.tfImportObj, Field.tfLiteImportObj, Field.vm, Field.vmConf], rfl⟩
  | some e =>
    rw [releaseOrder, releasesOf_of_err lib c img (by simp [hinit])]
    exact ⟨fieldOrder, rfl⟩

set_option maxRecDepth 1000000 in
/-- C8. genSha1 of the empty byte sequence is the lowercase hexadecimal SHA-1
digest of zero bytes. -/
theorem genSha1_empty : genSha1 [] = "da39a3ee5e6b4b0d3255bfef95601890afd80709" := by
  decide

/-- C9. If Connect would fail, main exits with status 1 and no SetHandler call
follows the Connect call; if SetHandler fails, main exits with status 1 and
Connect is not called; main blocks if and only if both calls succeed. SetHandler
is called exactly once, and every exit has status 1. -/
theorem main_startup (sdk : Sfn) :
    (sdk.connect ≠ none →
        (main sdk).1 = MainOutcome.exited 1 ∧
          MainEvent.setHandler ∉ afterFirst MainEvent.connect (main sdk).2) ∧
      (sdk.setHandler ≠ none →
        (main sdk).1 = MainOutcome.exited 1 ∧ MainEvent.connect ∉ (main sdk).2) ∧
      ((main sdk).1 = MainOutcome.blocked ↔ sdk.setHandler = none ∧ sdk.connect = none) ∧
      (main sdk).2.count MainEvent.setHandler = 1 ∧
      (∀ code, (main sdk).1 = MainOutcome.exited code → code = 1) := by
  obtain ⟨sh, cn⟩ := sdk
  cases sh <;> cases cn <;> simp [main, afterFirst, ImageDataKey]

/-- Instance of C9: SetHandler succeeds and Connect fails. -/
theorem main_startup_witness :
    (main ⟨none, some "connection refused"⟩).1 = MainOutcome.exited 1 ∧
      MainEvent.setHandler ∉
        afterFirst MainEvent.connect (main ⟨none, some "connection refused"⟩).2 :=
  (main_startup ⟨none, some "connection refused"⟩).1 (by decide)

/-- C10. For every byte sequence, genSha1 is a string of exactly 40 characters,
each in the set 0-9a-f: the two-digit lowercase hexadecimal rendering, high
nibble first, of each of the 20 bytes of the digest. The string is a function
of the bytes of the argument alone. -/
theorem genSha1_format (buf : List Byte) :
    (genSha1 buf).length = 40 ∧
      (∀ ch ∈ (genSha1 buf).toList, isLowerHex ch) ∧
      (sha1Sum buf).length = 20 ∧
      (∀ b ∈ sha1Sum buf, b < 256) ∧
      (genSha1 buf).toList = (sha1Sum buf).flatMap hexByte := by
  refine ⟨?_, ?_, sha1Sum_length buf, sha1Sum_lt buf, rfl⟩
  · show ((sha1Sum buf).flatMap hexByte).length = 40
    rw [flatMap_hexByte_length, sha1Sum_length]
  · intro ch hch
    have hch2 : ch ∈ (sha1Sum buf).flatMap hexByte := hch
    rw [List.mem_flatMap] at hch2
    obtain ⟨b, _, hb⟩ := hch2
    simp only [hexByte, List.mem_cons, List.mem_singleton, List.not_mem_nil, or_false] at hb
    rcases hb with h | h <;> (rw [h]; exact ldigits_getD_isLowerHex _)

end Flow
